import Mathlib

/-!
Shallow embedding of the gait-analysis dashboard (`src/app.py`) and
verification of the frozen specification claims about it.

The playback state lives in two session variables, `play : Bool` and
`time : float` (embedded here as an exact rational).  Four user-visible
operations mutate it per render cycle: the play/pause toggle, the reset
button, the timeline slider handler, and the end-of-body playback-advance
block ("tick").  Derived, pure functions compute the signal-table index,
the video frame index, and the rule-based insight record.
-/

namespace GaitDash

/-- Duration constant from the configuration block (`VIDEO_DURATION_SECONDS = 6`). -/
def VIDEO_DURATION_SECONDS : ℚ := 6

/-- Frames-per-second constant from the configuration block (`FPS = 30`). -/
def FPS : ℚ := 30

/-- The mutable session state threaded through every render cycle:
`st.session_state.play` and `st.session_state.time`. -/
structure ClockState where
  play : Bool
  time : ℚ
  deriving DecidableEq

/-- The four state-mutating inputs a render cycle can process. -/
inductive Event where
  | toggle
  | reset
  | seek (t : ℚ)
  | tick
  deriving DecidableEq

/-- One state-mutating operation, transcribed from `src/app.py`:
* `toggle` — lines 131-132: `st.session_state.play = not st.session_state.play`;
* `reset` — lines 134-136: `play = False; time = 0.0`;
* `seek t` — lines 140-142: `if time_slider != st.session_state.time:
  st.session_state.time = time_slider; st.session_state.play = False`;
* `tick` — lines 214-223: executed only when `play` is set; wraps the cursor to
  `0.0` when `time >= VIDEO_DURATION_SECONDS`, otherwise adds `1 / FPS`, then
  clamps to the duration and pauses if the new cursor exceeds it. -/
def step (s : ClockState) : Event → ClockState
  | .toggle => ⟨!s.play, s.time⟩
  | .reset => ⟨false, 0⟩
  | .seek t => if t ≠ s.time then ⟨false, t⟩ else s
  | .tick =>
    if s.play then
      let s1 : ClockState :=
        if s.time ≥ VIDEO_DURATION_SECONDS then ⟨s.play, 0⟩
        else ⟨s.play, s.time + 1 / FPS⟩
      if s1.time > VIDEO_DURATION_SECONDS then ⟨false, VIDEO_DURATION_SECONDS⟩
      else s1
    else s

/-- Slider events carry a value the slider widget already bounded to
`[0, VIDEO_DURATION_SECONDS]` (line 139); the other events carry nothing. -/
def Event.valid : Event → Prop
  | .seek t => 0 ≤ t ∧ t ≤ VIDEO_DURATION_SECONDS
  | _ => True

/-- Initial session state (lines 117-120): paused at time `0.0`. -/
def init : ClockState := ⟨false, 0⟩

/-- Fold a list of events over the step function, starting from `init`. -/
def run (es : List Event) : ClockState := es.foldl step init

/-- C1 counterexample: with the cursor already at the duration and mode Running,
the tick wraps the cursor back to `0` and leaves playback Running, contradicting
the claim that the cursor never wraps and the tick only flips mode to Paused. -/
theorem tick_wraps_at_end : step ⟨true, 6⟩ Event.tick = ⟨true, 0⟩ := by
  norm_num [step, VIDEO_DURATION_SECONDS, FPS]

/-- C1 (amended): while Running, a tick that starts with the cursor at or past the
duration wraps the cursor to `0` and keeps Running; a tick that starts below the
duration but would overshoot clamps the cursor to the duration and pauses; and an
ordinary tick advances the cursor by `1 / FPS` and keeps Running. -/
theorem tick_end_behavior (s : ClockState) (hp : s.play = true) :
    (VIDEO_DURATION_SECONDS ≤ s.time → step s Event.tick = ⟨true, 0⟩) ∧
    (s.time < VIDEO_DURATION_SECONDS → VIDEO_DURATION_SECONDS < s.time + 1 / FPS →
      step s Event.tick = ⟨false, VIDEO_DURATION_SECONDS⟩) ∧
    (s.time < VIDEO_DURATION_SECONDS → s.time + 1 / FPS ≤ VIDEO_DURATION_SECONDS →
      step s Event.tick = ⟨true, s.time + 1 / FPS⟩) := by
  refine ⟨fun h => ?_, fun h1 h2 => ?_, fun h1 h2 => ?_⟩ <;>
    simp only [step, hp, if_true, VIDEO_DURATION_SECONDS, FPS] at * <;>
    split_ifs <;> simp_all <;> linarith

/-- C1 witness: the amended tick theorem evaluated at the spec scenario
`cursor = 5.99`, `mode = Running`: the tick clamps to `6` and pauses. -/
theorem tick_end_behavior_witness :
    step ⟨true, 599/100⟩ Event.tick = ⟨false, VIDEO_DURATION_SECONDS⟩ :=
  (tick_end_behavior ⟨true, 599/100⟩ rfl).2.1
    (by norm_num [VIDEO_DURATION_SECONDS]) (by norm_num [VIDEO_DURATION_SECONDS, FPS])

/-- C2 counterexample: seeking to the value the cursor already has while Running
is a no-op, so the mode stays Running instead of becoming Paused. -/
theorem seek_noop_keeps_running : (step ⟨true, 1⟩ (Event.seek 1)).play = true := by
  simp [step]

/-- C2 (amended): for `t` in `[0, Duration]`, the slider handler always leaves the
cursor equal to `t`; when `t` differs from the current cursor it sets the cursor
and forces Paused, and when `t` equals the current cursor it leaves the whole
state (mode included) unchanged. -/
theorem seek_behavior (s : ClockState) (t : ℚ) (h0 : 0 ≤ t)
    (h6 : t ≤ VIDEO_DURATION_SECONDS) :
    (step s (Event.seek t)).time = t ∧
    (t ≠ s.time → step s (Event.seek t) = ⟨false, t⟩) ∧
    (t = s.time → step s (Event.seek t) = s) := by
  by_cases h : t = s.time <;> simp [step, h]

/-- C2 witness: the amended seek theorem evaluated at state `(Running, 1)`,
seeking to `2`. -/
theorem seek_behavior_witness : (step ⟨true, 1⟩ (Event.seek 2)).time = 2 :=
  (seek_behavior ⟨true, 1⟩ 2 (by norm_num) (by norm_num [VIDEO_DURATION_SECONDS])).1

/-- Every single mutating operation with a valid payload keeps the cursor inside
`[0, VIDEO_DURATION_SECONDS]`. -/
theorem step_preserves_bounds (s : ClockState) (e : Event) (h0 : 0 ≤ s.time)
    (h6 : s.time ≤ VIDEO_DURATION_SECONDS) (hv : e.valid) :
    0 ≤ (step s e).time ∧ (step s e).time ≤ VIDEO_DURATION_SECONDS := by
  cases e with
  | toggle => exact ⟨h0, h6⟩
  | reset => norm_num [step, VIDEO_DURATION_SECONDS]
  | seek t =>
    obtain ⟨ht0, ht6⟩ := hv
    by_cases h : t = s.time <;> simp [step, h] <;> exact ⟨by assumption, by assumption⟩
  | tick =>
    by_cases hp : s.play
    · simp only [step, hp, if_true, VIDEO_DURATION_SECONDS, FPS] at *
      split_ifs <;> constructor <;> simp_all <;> linarith
    · simpa [step, hp] using ⟨h0, h6⟩

/-- Folding any list of valid events preserves the cursor bounds. -/
theorem run_bounds_aux (es : List Event) :
    ∀ s : ClockState, 0 ≤ s.time → s.time ≤ VIDEO_DURATION_SECONDS →
      (∀ e ∈ es, e.valid) →
      0 ≤ (es.foldl step s).time ∧ (es.foldl step s).time ≤ VIDEO_DURATION_SECONDS := by
  induction es with
  | nil => exact fun s h0 h6 _ => ⟨h0, h6⟩
  | cons e es ih =>
    intro s h0 h6 hv'
    have hb := step_preserves_bounds s e h0 h6 (hv' e (List.mem_cons_self _ _))
    exact ih (step s e) hb.1 hb.2 (fun e' he' => hv' e' (List.mem_cons_of_mem _ he'))

/-- C8: starting from the initial state, any sequence of valid operations (play
toggle, reset, in-range slider seek, tick) leaves the cursor within
`[0, VIDEO_DURATION_SECONDS]` at the start of the next render cycle: it is never
negative and never exceeds the duration. -/
theorem cursor_within_bounds (es : List Event) (hv : ∀ e ∈ es, e.valid) :
    0 ≤ (run es).time ∧ (run es).time ≤ VIDEO_DURATION_SECONDS :=
  run_bounds_aux es init le_rfl (by norm_num [init, VIDEO_DURATION_SECONDS]) hv

/-- C8 witness: the cursor-bounds invariant evaluated on a concrete trace that
toggles play, ticks twice, scrubs to `2`, and resets. -/
theorem cursor_within_bounds_witness :
    0 ≤ (run [Event.toggle, Event.tick, Event.tick, Event.seek 2, Event.reset]).time ∧
    (run [Event.toggle, Event.tick, Event.tick, Event.seek 2, Event.reset]).time ≤
      VIDEO_DURATION_SECONDS :=
  cursor_within_bounds _
    (by intro e he; fin_cases he <;> norm_num [Event.valid, VIDEO_DURATION_SECONDS])

/-- Python's `%` operator on rationals with a positive modulus: floored
modulo, `a - m * ⌊a / m⌋`, which is non-negative for every `a` when `m > 0`. -/
def pymod (a m : ℚ) : ℚ := a - m * ⌊a / m⌋

/-- The record returned by `get_ai_insights`: title, finding text, status tag. -/
structure InsightRecord where
  title : String
  finding : String
  status : String
  deriving DecidableEq

/-- Record of the `[0, 0.2)` window (lines 55-59). -/
def insight0 : InsightRecord :=
  ⟨"Right Heel Strike",
   "Initiating stance phase on the right leg. Hip is flexed (~25°), knee is near full extension to accept weight.",
   "Normal"⟩

/-- Record of the `[0.2, 0.8)` window (lines 61-65). -/
def insight1 : InsightRecord :=
  ⟨"Left Swing Phase",
   "Left leg is in swing. Peak knee flexion (~65°) and ankle dorsiflexion ensure adequate ground clearance.",
   "Normal"⟩

/-- Record of the `[0.8, 1.3)` window (lines 67-71). -/
def insight2 : InsightRecord :=
  ⟨"Right Push-Off",
   "Powerful ankle plantarflexion detected on the right side, propelling the body forward. This is a key indicator of propulsive force.",
   "Good"⟩

/-- Record of the `[1.3, 1.5)` window (lines 73-77). -/
def insight3 : InsightRecord :=
  ⟨"Left Heel Strike",
   "Symmetry check: Left leg makes initial contact. Comparing angles to the right side shows good bilateral symmetry.",
   "Symmetrical"⟩

/-- Record of the `[1.5, 2.0)` window (lines 79-83). -/
def insight4 : InsightRecord :=
  ⟨"Right Swing Phase",
   "Right leg is now in swing. Hip flexion is increasing towards its peak.",
   "Normal"⟩

/-- Record of the fallback window (lines 85-89). -/
def insight5 : InsightRecord :=
  ⟨"Overall Assessment",
   "Gait pattern appears stable and rhythmic. Cadence is estimated at ~110 steps/minute.",
   "Stable"⟩

/-- `get_ai_insights` (lines 51-89): reduce `t` modulo the `2.2`-second cycle,
then walk the if/elif chain of half-open windows. -/
def get_ai_insights (t : ℚ) : InsightRecord :=
  let cycle_time := pymod t 2.2
  if 0 ≤ cycle_time ∧ cycle_time < 0.2 then insight0
  else if 0.2 ≤ cycle_time ∧ cycle_time < 0.8 then insight1
  else if 0.8 ≤ cycle_time ∧ cycle_time < 1.3 then insight2
  else if 1.3 ≤ cycle_time ∧ cycle_time < 1.5 then insight3
  else if 1.5 ≤ cycle_time ∧ cycle_time < 2.0 then insight4
  else insight5

/-- Lower endpoints of the six windows, in source order. -/
def winLo : Fin 6 → ℚ
  | 0 => 0
  | 1 => 0.2
  | 2 => 0.8
  | 3 => 1.3
  | 4 => 1.5
  | 5 => 2.0

/-- Upper endpoints of the six windows, in source order. -/
def winHi : Fin 6 → ℚ
  | 0 => 0.2
  | 1 => 0.8
  | 2 => 1.3
  | 3 => 1.5
  | 4 => 2.0
  | 5 => 2.2

/-- The six records in window order. -/
def insightTable : Fin 6 → InsightRecord
  | 0 => insight0
  | 1 => insight1
  | 2 => insight2
  | 3 => insight3
  | 4 => insight4
  | 5 => insight5

/-- Floored modulo by a positive modulus lands in `[0, m)`. -/
theorem pymod_bounds (a m : ℚ) (hm : 0 < m) : 0 ≤ pymod a m ∧ pymod a m < m := by
  unfold pymod
  have key : m * (a / m) = a := by field_simp
  constructor
  · have h1 : ((⌊a / m⌋ : ℤ) : ℚ) ≤ a / m := Int.floor_le _
    have h2 : m * ((⌊a / m⌋ : ℤ) : ℚ) ≤ m * (a / m) := by
      exact mul_le_mul_of_nonneg_left h1 hm.le
    linarith
  · have h1 : a / m < ((⌊a / m⌋ : ℤ) : ℚ) + 1 := Int.lt_floor_add_one _
    have h2 : m * (a / m) < m * (((⌊a / m⌋ : ℤ) : ℚ) + 1) := by
      exact mul_lt_mul_of_pos_left h1 hm
    have h3 : m * (((⌊a / m⌋ : ℤ) : ℚ) + 1) = m * ((⌊a / m⌋ : ℤ) : ℚ) + m := by ring
    linarith

/-- C3: the insight lookup is total: every rational `t` (negative and zero
included) reduces modulo the cycle period `2.2` to a non-negative value below
`2.2`; the six half-open windows partition `[0, 2.2)` — every such value lies in
exactly one window; and the lookup returns precisely the record of the window
containing the reduced value. -/
theorem insight_lookup_total :
    (∀ t : ℚ, 0 ≤ pymod t 2.2 ∧ pymod t 2.2 < 2.2) ∧
    (∀ c : ℚ, 0 ≤ c → c < 2.2 → ∃! i : Fin 6, winLo i ≤ c ∧ c < winHi i) ∧
    (∀ t : ℚ, ∀ i : Fin 6, winLo i ≤ pymod t 2.2 → pymod t 2.2 < winHi i →
      get_ai_insights t = insightTable i) := by
  refine ⟨fun t => pymod_bounds t 2.2 (by norm_num), fun c hc0 hc2 => ?_, ?_⟩
  · rcases lt_or_le c 0.2 with h | h
    · refine ⟨0, ⟨by simpa [winLo] using hc0, by simpa [winHi] using h⟩, fun j hj => ?_⟩
      fin_cases j <;> first | rfl | (exfalso; simp only [winLo, winHi] at hj; linarith [hj.1, hj.2])
    rcases lt_or_le c 0.8 with h' | h'
    · refine ⟨1, ⟨by simpa [winLo] using h, by simpa [winHi] using h'⟩, fun j hj => ?_⟩
      fin_cases j <;> first | rfl | (exfalso; simp only [winLo, winHi] at hj; linarith [hj.1, hj.2])
    rcases lt_or_le c 1.3 with h'' | h''
    · refine ⟨2, ⟨by simpa [winLo] using h', by simpa [winHi] using h''⟩, fun j hj => ?_⟩
      fin_cases j <;> first | rfl | (exfalso; simp only [winLo, winHi] at hj; linarith [hj.1, hj.2])
    rcases lt_or_le c 1.5 with h3 | h3
    · refine ⟨3, ⟨by simpa [winLo] using h'', by simpa [winHi] using h3⟩, fun j hj => ?_⟩
      fin_cases j <;> first | rfl | (exfalso; simp only [winLo, winHi] at hj; linarith [hj.1, hj.2])
    rcases lt_or_le c 2.0 with h4 | h4
    · refine ⟨4, ⟨by simpa [winLo] using h3, by simpa [winHi] using h4⟩, fun j hj => ?_⟩
      fin_cases j <;> first | rfl | (exfalso; simp only [winLo, winHi] at hj; linarith [hj.1, hj.2])
    · refine ⟨5, ⟨by simpa [winLo] using h4, by simpa [winHi] using hc2⟩, fun j hj => ?_⟩
      fin_cases j <;> first | rfl | (exfalso; simp only [winLo, winHi] at hj; linarith [hj.1, hj.2])
  · intro t i h1 h2
    fin_cases i <;> simp only [winLo, winHi] at h1 h2 <;>
      simp only [get_ai_insights, insightTable]
    · rw [if_pos ⟨h1, h2⟩]
    · rw [if_neg (fun hx => absurd hx.2 (by linarith)), if_pos ⟨h1, h2⟩]
    · rw [if_neg (fun hx => absurd hx.2 (by linarith)),
        if_neg (fun hx => absurd hx.2 (by linarith)), if_pos ⟨h1, h2⟩]
    · rw [if_neg (fun hx => absurd hx.2 (by linarith)),
        if_neg (fun hx => absurd hx.2 (by linarith)),
        if_neg (fun hx => absurd hx.2 (by linarith)), if_pos ⟨h1, h2⟩]
    · rw [if_neg (fun hx => absurd hx.2 (by linarith)),
        if_neg (fun hx => absurd hx.2 (by linarith)),
        if_neg (fun hx => absurd hx.2 (by linarith)),
        if_neg (fun hx => absurd hx.2 (by linarith)), if_pos ⟨h1, h2⟩]
    · rw [if_neg (fun hx => absurd hx.2 (by linarith)),
        if_neg (fun hx => absurd hx.2 (by linarith)),
        if_neg (fun hx => absurd hx.2 (by linarith)),
        if_neg (fun hx => absurd hx.2 (by linarith)),
        if_neg (fun hx => absurd hx.2 (by linarith))]

/-- C9: the status of every insight record produced by the lookup is one of
Normal, Good, Symmetrical, Stable; the data-model value Unknown never occurs. -/
theorem insight_status_known (t : ℚ) :
    (get_ai_insights t).status ∈ ["Normal", "Good", "Symmetrical", "Stable"] ∧
    (get_ai_insights t).status ≠ "Unknown" := by
  simp only [get_ai_insights]
  split_ifs <;> simp [insight0, insight1, insight2, insight3, insight4, insight5]

/-- C3 witness: the partition applied at `c = 1/2`, and the lookup at `t = 2.3`
(which reduces to cycle time `0.1`) returning the first window's record. -/
theorem insight_lookup_total_witness :
    (∃! i : Fin 6, winLo i ≤ (1/2 : ℚ) ∧ (1/2 : ℚ) < winHi i) ∧
    get_ai_insights 2.3 = insightTable 0 := by
  have hfl : ⌊(2.3 : ℚ) / 2.2⌋ = 1 := by
    rw [Int.floor_eq_iff]
    norm_num
  exact ⟨insight_lookup_total.2.1 (1/2) (by norm_num) (by norm_num),
    insight_lookup_total.2.2 2.3 0 (by norm_num [winLo, pymod, hfl])
      (by norm_num [winHi, pymod, hfl])⟩

/-- The derived signal-table index (lines 146-147):
`current_data_index = int(time * (len(gait_data) / VIDEO_DURATION_SECONDS))`
followed by `min(current_data_index, len(gait_data) - 1)`.  The cursor is
non-negative, so Python's truncating `int` is the floor. -/
def current_data_index (time : ℚ) (n : ℕ) : ℤ :=
  min ⌊time * ((n : ℚ) / VIDEO_DURATION_SECONDS)⌋ ((n : ℤ) - 1)

/-- C4: for every table size `n ≥ 1` and cursors `0 ≤ c₁ ≤ c₂ ≤ Duration`, the
derived sample index is monotone non-decreasing in the cursor and strictly less
than the table size. -/
theorem current_data_index_mono_lt (n : ℕ) (c₁ c₂ : ℚ) (hn : 1 ≤ n)
    (h0 : 0 ≤ c₁) (h12 : c₁ ≤ c₂) (h6 : c₂ ≤ VIDEO_DURATION_SECONDS) :
    current_data_index c₁ n ≤ current_data_index c₂ n ∧
    current_data_index c₂ n < (n : ℤ) := by
  constructor
  · refine min_le_min (Int.floor_le_floor ?_) le_rfl
    have hnn : (0 : ℚ) ≤ (n : ℚ) / VIDEO_DURATION_SECONDS := by
      rw [VIDEO_DURATION_SECONDS]
      positivity
    exact mul_le_mul_of_nonneg_right h12 hnn
  · exact lt_of_le_of_lt (min_le_right _ _) (by linarith)

/-- C4 witness: the monotonicity and bound evaluated at `n = 180`, cursors `2`
and `3`. -/
theorem current_data_index_mono_lt_witness :
    current_data_index 2 180 ≤ current_data_index 3 180 ∧
    current_data_index 3 180 < (180 : ℤ) :=
  current_data_index_mono_lt 180 2 3 (by norm_num) (by norm_num) (by norm_num)
    (by norm_num [VIDEO_DURATION_SECONDS])

/-- `np.linspace(start, stop, num)` over exact rationals: raises (returns
`none`) when `num` is negative; returns `[start]` for `num = 1`, the empty list
for `num = 0`, and otherwise `num` evenly spaced points from `start` to `stop`,
endpoint included, with spacing `(stop - start) / (num - 1)`. -/
def linspace (start stop : ℚ) (num : ℤ) : Option (List ℚ) :=
  if num < 0 then none
  else if num = 1 then some [start]
  else some ((List.range num.toNat).map
    (fun i : ℕ => start + (stop - start) * (i : ℚ) / ((num : ℚ) - 1)))

/-- Gait cycle length in seconds (line 21). -/
def gait_cycle_duration : ℝ := 1.1

/-- Angular frequency `w = 2 * np.pi / gait_cycle_duration` (line 22). -/
noncomputable def w : ℝ := 2 * Real.pi / gait_cycle_duration

/-- One row of the generated signal table: the sample time and the six named
angle channels. -/
structure Sample where
  time : ℝ
  left_hip : ℝ
  right_hip : ℝ
  left_knee : ℝ
  right_knee : ℝ
  left_ankle : ℝ
  right_ankle : ℝ

/-- The six channel formulas of `generate_gait_data` (lines 24-35), evaluated at
one sample time `t`. -/
noncomputable def mkSample (t : ℝ) : Sample where
  time := t
  right_hip := -18 * Real.cos (w * t) + 12
  left_hip := -18 * Real.cos (w * t + Real.pi) + 12
  right_knee := 35 * (1 - Real.cos (w * t + 0.2)) / 2 + 15 * (Real.sin (w * t - 0.5)) ^ 4
  left_knee := 35 * (1 - Real.cos (w * t + Real.pi + 0.2)) / 2
    + 15 * (Real.sin (w * t + Real.pi - 0.5)) ^ 4
  right_ankle := 12 * Real.sin (w * t - Real.pi * 0.45) - 5
  left_ankle := 12 * Real.sin (w * t + Real.pi - Real.pi * 0.45) - 5

/-- `generate_gait_data(duration, num_points)` (lines 18-47): sample times from
`np.linspace(0, duration, num_points)`, one table row per time.  The only
failing path is the one `np.linspace` raises on, a negative `num_points`. -/
noncomputable def generate_gait_data (duration : ℚ) (num_points : ℤ) :
    Option (List Sample) :=
  (linspace 0 duration num_points).map
    (fun ts => ts.map (fun q : ℚ => mkSample ((q : ℝ))))

/-- `linspace` fails exactly on a negative sample count. -/
theorem linspace_none_iff (start stop : ℚ) (num : ℤ) :
    linspace start stop num = none ↔ num < 0 := by
  unfold linspace
  split_ifs with h h1 <;> simp [h]

/-- A successful `linspace` returns `num.toNat` points. -/
theorem linspace_length (start stop : ℚ) (num : ℤ) (l : List ℚ)
    (h : linspace start stop num = some l) : l.length = num.toNat := by
  unfold linspace at h
  split_ifs at h with hneg h1
  · injection h with h
    subst h
    simp [h1]
  · injection h with h
    subst h
    rw [List.length_map, List.length_range]

/-- A successful generation returns one table row per `linspace` point. -/
theorem generate_some_length (duration : ℚ) (num_points : ℤ) (tbl : List Sample)
    (h : generate_gait_data duration num_points = some tbl) :
    tbl.length = num_points.toNat := by
  unfold generate_gait_data at h
  rcases Option.map_eq_some'.mp h with ⟨ts, hts, rfl⟩
  rw [List.length_map]
  exact linspace_length _ _ _ _ hts

/-- C6 counterexample: generation with `num_points = 1 < 2` succeeds (numpy's
`linspace` accepts it and yields the single point `0.0`), so generation does not
fail for every `num_points < 2` as claimed. -/
theorem generate_succeeds_at_one :
    (1 : ℤ) < 2 ∧ (generate_gait_data 6 1).isSome = true := by
  refine ⟨by norm_num, ?_⟩
  unfold generate_gait_data linspace
  norm_num

/-- C6 (amended): generation fails if and only if `num_points` is negative
(the only path numpy's `linspace` raises on); for every `num_points ≥ 0`,
including 0 and 1, it succeeds and returns the table. -/
theorem generate_fails_iff_neg (duration : ℚ) (num_points : ℤ) :
    generate_gait_data duration num_points = none ↔ num_points < 0 := by
  unfold generate_gait_data
  rw [Option.map_eq_none', linspace_none_iff]

/-- The table the application actually builds (line 145, with
`num_points = int(VIDEO_DURATION_SECONDS * FPS) = 180`) has 180 rows. -/
theorem app_table_length :
    (generate_gait_data 6 (6 * 30)).map List.length = some 180 := by
  have hne : linspace 0 6 (6 * 30) ≠ none := by
    rw [Ne, linspace_none_iff]
    norm_num
  obtain ⟨ts, hts⟩ := Option.ne_none_iff_exists'.mp hne
  have hsome : generate_gait_data 6 (6 * 30) =
      some (ts.map (fun q : ℚ => mkSample ((q : ℝ)))) := by
    unfold generate_gait_data
    rw [hts, Option.map_some']
  rw [hsome, Option.map_some']
  have := generate_some_length 6 (6 * 30) _ hsome
  norm_num at this ⊢
  exact this

/-- C5 counterexample: the application's table has 180 samples, not the claimed
`round(6.0*30)+1 = 181`. -/
theorem table_not_181 :
    (generate_gait_data 6 (6 * 30)).map List.length ≠ some 181 := by
  rw [app_table_length]
  simp

/-- C5 (amended): with `Duration = 6.0` and `SampleRate = 30` the generated
table has exactly 180 samples (`int(6.0*30)` points, no `+1`), and after
`seek(3.0)` the derived sample index over that 180-row table equals 90. -/
theorem table_len_and_index_at_3 :
    (generate_gait_data 6 (6 * 30)).map List.length = some 180 ∧
    current_data_index 3 180 = 90 := by
  refine ⟨app_table_length, ?_⟩
  have hfl : ⌊(3 : ℚ) * ((180 : ℚ) / 6)⌋ = 90 := by
    rw [Int.floor_eq_iff]
    norm_num
  rw [current_data_index, VIDEO_DURATION_SECONDS]
  norm_num [hfl]

/-- The two hip channels are exact mirror images around 12 at every time. -/
theorem hip_sum_const (t : ℝ) : (mkSample t).left_hip + (mkSample t).right_hip = 24 := by
  simp only [mkSample]
  rw [Real.cos_add_pi]
  ring

/-- The two ankle channels are exact mirror images around -5 at every time. -/
theorem ankle_sum_const (t : ℝ) :
    (mkSample t).left_ankle + (mkSample t).right_ankle = -10 := by
  simp only [mkSample]
  have h : w * t + Real.pi - Real.pi * 0.45 = (w * t - Real.pi * 0.45) + Real.pi := by
    ring
  rw [h, Real.sin_add_pi]
  ring

/-- C10: every row of every successfully generated table satisfies the exact
half-cycle phase symmetries `left_hip + right_hip = 24` and
`left_ankle + right_ankle = -10`. -/
theorem gait_table_symmetry (duration : ℚ) (num_points : ℤ) (tbl : List Sample)
    (h : generate_gait_data duration num_points = some tbl) :
    ∀ s ∈ tbl, s.left_hip + s.right_hip = 24 ∧ s.left_ankle + s.right_ankle = -10 := by
  intro s hs
  unfold generate_gait_data at h
  rcases Option.map_eq_some'.mp h with ⟨ts, _, rfl⟩
  rcases List.mem_map.mp hs with ⟨q, _, rfl⟩
  exact ⟨hip_sum_const _, ankle_sum_const _⟩

/-- C10 witness: the symmetry theorem applied to the concrete one-row table
generated by `generate_gait_data 6 1`, whose single sample sits at time 0. -/
theorem gait_table_symmetry_witness :
    (mkSample ((0 : ℚ) : ℝ)).left_hip + (mkSample ((0 : ℚ) : ℝ)).right_hip = 24 ∧
    (mkSample ((0 : ℚ) : ℝ)).left_ankle + (mkSample ((0 : ℚ) : ℝ)).right_ankle = -10 :=
  gait_table_symmetry 6 1 [mkSample ((0 : ℚ) : ℝ)]
    (by unfold generate_gait_data linspace; norm_num)
    (mkSample ((0 : ℚ) : ℝ)) (by simp)

/-- Python list subscription `xs[i]`: a non-negative index must be below the
length, a negative index counts from the end, anything else raises `IndexError`
(modelled as `none`). -/
def pyGet {α : Type} (xs : List α) (i : ℤ) : Option α :=
  if 0 ≤ i then xs.get? i.toNat
  else if 0 ≤ i + xs.length then xs.get? (i + xs.length).toNat
  else none

/-- The video frame index (lines 155-156):
`frame_index = int(st.session_state.time * actual_fps)` followed by
`min(frame_index, num_frames - 1)`; the cursor is non-negative, so the
truncating `int` is the floor. -/
def frame_index (time fps : ℚ) (num_frames : ℕ) : ℤ :=
  min ⌊time * fps⌋ ((num_frames : ℤ) - 1)

/-- The frame lookup a render cycle performs (lines 155-163): derive the clamped
index from the cursor and subscript the pre-loaded frame list. -/
def getFrame {α : Type} (frames : List α) (t fps : ℚ) : Option α :=
  pyGet frames (frame_index t fps frames.length)

/-- C7 counterexample: a one-frame source at 1 frame per second, queried at
`t = 100` — far beyond its 1-second content — returns the (last) frame rather
than Absent: the index is clamped to `num_frames - 1`, never out of range. -/
theorem getFrame_clamps_not_absent :
    getFrame [(0 : ℕ)] 100 1 = some 0 ∧ getFrame [(0 : ℕ)] 100 1 ≠ none := by
  have h : getFrame [(0 : ℕ)] 100 1 = some 0 := by
    unfold getFrame frame_index pyGet
    norm_num
  exact ⟨h, by rw [h]; simp⟩

/-- C7 (amended): for any non-empty frame source and any timestamp at or beyond
the source's content length (`num_frames / fps` at `fps > 0` frames per
second), the lookup returns the frame at the clamped last index
`num_frames - 1` — a present frame, so the render cycle completes with an image
rather than receiving Absent. -/
theorem getFrame_past_end {α : Type} (frames : List α) (t fps : ℚ)
    (hne : frames ≠ []) (hfps : 0 < fps) (ht : (frames.length : ℚ) / fps ≤ t) :
    getFrame frames t fps = frames.get? (frames.length - 1) ∧
    (getFrame frames t fps).isSome = true := by
  have hlen : 1 ≤ frames.length := List.length_pos.mpr hne
  have hmul : (frames.length : ℚ) ≤ t * fps := by
    rw [div_le_iff₀ hfps] at ht
    linarith
  have hfloor : ((frames.length : ℤ) - 1) ≤ ⌊t * fps⌋ := by
    apply Int.le_floor.mpr
    push_cast
    linarith
  have hidx : frame_index t fps frames.length = (frames.length : ℤ) - 1 :=
    min_eq_right hfloor
  have hlen' : (1 : ℤ) ≤ (frames.length : ℤ) := by exact_mod_cast hlen
  have hnonneg : 0 ≤ (frames.length : ℤ) - 1 := by omega
  have heq : getFrame frames t fps = frames.get? (frames.length - 1) := by
    unfold getFrame pyGet
    rw [hidx, if_pos hnonneg]
    congr 1
    omega
  refine ⟨heq, ?_⟩
  rw [heq, List.get?_eq_get (by omega : frames.length - 1 < frames.length)]
  rfl

/-- C7 witness: the amended lookup theorem evaluated on a one-frame source at
1 fps, queried at `t = 100`. -/
theorem getFrame_past_end_witness :
    getFrame [(0 : ℕ)] 100 1 = [(0 : ℕ)].get? 0 ∧
    (getFrame [(0 : ℕ)] 100 1).isSome = true :=
  getFrame_past_end [(0 : ℕ)] 100 1 (by simp) (by norm_num) (by norm_num)

end GaitDash
